import Mathlib

/-!
Verification of the Foldspace payment-gated session orchestrator.

This file is a shallow embedding, in Lean 4, of the parts of the repository
that the documented properties speak about:

* the T2V pricing model (`src/src/models/t2v.ts`);
* the file-backed session store (`src/proxy/src/storage/FileSessionStore.ts`);
* the push-model payment coordinator (`src/proxy/src/services/PaymentCoordinator.ts`);
* the pull-model session service (`SessionService` of the service variant);
* the on-chain payment listener (`PaymentListenerService` in
  `src/src/services/ServerConnect.ts`).

JavaScript `Map` objects are modelled as association lists with the usual
get/set/delete operations; `Set` objects as duplicate-free lists.  External
calls (facilitator verify/settle, downstream submission, chain RPC) are
modelled as explicit outcome parameters, so every control path of the
TypeScript code is a function of the state plus those outcomes.  Timestamps
(`new Date().toISOString()`) are abstract `Nat` parameters.  Fire-and-forget
notification calls (`postAgentverseUpdate`, `notifyAgentverse`) swallow their
own errors in the source and touch no session state, so they are omitted.
-/

namespace Foldspace

/-! ## Association-list maps and list sets

Model of the JavaScript `Map` (string-keyed) and `Set` containers used
throughout the source.  `mapSet` replaces an existing binding in place and
appends a fresh one, matching `Map.prototype.set`; `mapDel` removes the
binding, matching `Map.prototype.delete` on maps whose keys are unique by
construction. -/

def mapGet {α : Type} : List (String × α) → String → Option α
  | [], _ => none
  | (k, v) :: rest, q => if k = q then some v else mapGet rest q

def mapSet {α : Type} : List (String × α) → String → α → List (String × α)
  | [], k, v => [(k, v)]
  | (k0, v0) :: rest, k, v =>
    if k0 = k then (k, v) :: rest else (k0, v0) :: mapSet rest k v

def mapDel {α : Type} : List (String × α) → String → List (String × α)
  | [], _ => []
  | (k0, v0) :: rest, k =>
    if k0 = k then mapDel rest k else (k0, v0) :: mapDel rest k

def setInsertNat (l : List Nat) (a : Nat) : List Nat :=
  if a ∈ l then l else l ++ [a]

/-! ## T2V pricing model (`src/src/models/t2v.ts`)

JavaScript numbers that reach the pricing code are modelled as `JSNum`:
either `NaN` or an exact rational value.  Every arithmetic operation the
pricing code performs on them (comparison, `Math.floor`, `Math.min`,
multiplication by the integer rate and by the multiplier 1 or 1.5,
`Math.round`) is exact on IEEE doubles in the reachable range, so the
rational model is faithful.  A missing `duration` field is `none`. -/

inductive JSNum : Type
  | nan : JSNum
  | val : ℚ → JSNum
deriving DecidableEq

inductive VideoModel : Type
  | RUNWAYML | SEEDANCEI2V | HAILUO | HAILUOPRO | WANI2V | WANI2V5B
  | VEO31I2V | VEO31I2VFAST | KLINGIMGTOVIDTURBO | SORA2 | SORA2PRO
deriving DecidableEq

inductive ImageModel : Type
  | GPTIMAGE1 | IMAGEN4 | SEEDREAM | NANOBANANA | HUNYUAN
deriving DecidableEq

structure T2VCreateVideoInput where
  duration : Option JSNum := none
  image_model : Option ImageModel := none
  video_model : Option VideoModel := none
deriving DecidableEq

def DEFAULT_DURATION_SECONDS : ℕ := 30
def MAX_DURATION_SECONDS : ℕ := 180

/-- Per-second credit rate table `VIDEO_RATE_EXCEPTIONS` (every key is
present in the source record, so the `?? DEFAULT_VIDEO_RATE` fallback of
`resolveVideoRate` is dead). -/
def resolveVideoRate : VideoModel → ℕ
  | .VEO31I2V => 60
  | .VEO31I2VFAST => 30
  | .KLINGIMGTOVIDTURBO => 15
  | .SORA2 => 30
  | .SORA2PRO => 70
  | _ => 10

def resolveImageModelMultiplier : ImageModel → ℚ
  | .HUNYUAN => 3 / 2
  | _ => 1

/-- JavaScript `Math.round` on the non-negative values reached here: ties
round up. -/
def jsRound (q : ℚ) : ℤ := ⌊q + 1 / 2⌋

/-- Model of `coerceDurationSeconds`: non-numbers and `NaN` map to the
default, non-positive values map to the default, positive values are floored
and capped at `MAX_DURATION_SECONDS`. -/
def coerceDurationSeconds : Option JSNum → ℕ
  | none => DEFAULT_DURATION_SECONDS
  | some .nan => DEFAULT_DURATION_SECONDS
  | some (.val q) =>
    if q ≤ 0 then DEFAULT_DURATION_SECONDS
    else min (Int.toNat ⌊q⌋) MAX_DURATION_SECONDS

structure T2VCostBreakdown where
  durationSeconds : ℕ
  videoModel : VideoModel
  imageModel : ImageModel
  rateCreditsPerSecond : ℕ
  imageModelMultiplier : ℚ
  totalCredits : ℤ
deriving DecidableEq

def calculateT2VCostBreakdown (input : T2VCreateVideoInput) : T2VCostBreakdown :=
  let durationSeconds := coerceDurationSeconds input.duration
  let videoModel := input.video_model.getD .RUNWAYML
  let imageModel := input.image_model.getD .GPTIMAGE1
  let rateCreditsPerSecond := resolveVideoRate videoModel
  let imageModelMultiplier := resolveImageModelMultiplier imageModel
  { durationSeconds := durationSeconds
    videoModel := videoModel
    imageModel := imageModel
    rateCreditsPerSecond := rateCreditsPerSecond
    imageModelMultiplier := imageModelMultiplier
    totalCredits :=
      jsRound ((durationSeconds : ℚ) * (rateCreditsPerSecond : ℚ) * imageModelMultiplier) }

/-! ## Payment requirements

Shared shape of the x402 `PaymentRequirements` object.  All fields the
matching code compares are strings compared with `!==` in the source (the
amount `maxAmountRequired` is itself a decimal string).  Fields never read by
the embedded code paths (`description`, `mimeType`, `extra`, ...) are
omitted. -/

structure Requirement where
  scheme : String := "exact"
  network : String := "base-sepolia"
  maxAmountRequired : String := "0"
  resource : String := ""
  payTo : String := ""
  asset : String := ""
deriving DecidableEq

/-! ## SessionService (service variant, `SessionService.ts`)

The pull-model orchestrator.  `sessions` is an in-memory `Map` from session
id to record.  The downstream submission (`T2VOrchestrator.submitPaidRequest`,
which performs facilitator verification/settlement and then the SamsarOne
API call) is modelled by an explicit `SubmitOutcome`: either the whole call
threw, or it returned a response whose optional `request_id` is carried. -/

inductive SvcStatus : Type
  | payment_pending | payment_confirmed | creation_pending
  | creation_in_progress | completed | failed
deriving DecidableEq

structure SvcHistoryEntry where
  status : SvcStatus
  message : String
  timestamp : Nat
deriving DecidableEq

structure SvcSessionRecord where
  id : String
  createdAt : Nat := 0
  updatedAt : Nat := 0
  status : SvcStatus
  requirement : Requirement
  history : List SvcHistoryEntry
  samsarRequestId : Option String := none
  resultUrl : Option String := none
  failureReason : Option String := none
  lastPaymentPayload : Option String := none
deriving DecidableEq

structure SvcSessionUpdate where
  status : Option SvcStatus := none
  samsarRequestId : Option String := none
  resultUrl : Option String := none
  failureReason : Option String := none
  lastPaymentPayload : Option String := none
  requirement : Option Requirement := none
  historyEntry : Option SvcHistoryEntry := none
deriving DecidableEq

abbrev SvcMap := List (String × SvcSessionRecord)

/-- Record-level body of `SessionService.applyUpdate`: build the next session
from the update, appending one history entry (`update.historyEntry ??` the
freshly built entry carrying the post-transition status). -/
def applyUpdateRecord (session : SvcSessionRecord) (update : SvcSessionUpdate)
    (message : String) (timestamp : Nat) : SvcSessionRecord :=
  let newStatus := update.status.getD session.status
  let historyEntry : SvcHistoryEntry :=
    { status := newStatus, message := message, timestamp := timestamp }
  { session with
    status := newStatus
    updatedAt := timestamp
    samsarRequestId := (update.samsarRequestId).orElse (fun _ => session.samsarRequestId)
    resultUrl := (update.resultUrl).orElse (fun _ => session.resultUrl)
    failureReason := (update.failureReason).orElse (fun _ => session.failureReason)
    lastPaymentPayload := (update.lastPaymentPayload).orElse (fun _ => session.lastPaymentPayload)
    requirement := (update.requirement).getD session.requirement
    history := session.history ++ [(update.historyEntry).getD historyEntry] }

/-- Map-level `SessionService.applyUpdate`: look the session up, throw
`not found` when absent, otherwise store and return the rebuilt record. -/
def svcApplyUpdate (sessions : SvcMap) (sessionId : String) (update : SvcSessionUpdate)
    (message : String) (timestamp : Nat) : SvcMap × Except String SvcSessionRecord :=
  match mapGet sessions sessionId with
  | none => (sessions, Except.error ("Session " ++ sessionId ++ " not found."))
  | some session =>
    let nextSession := applyUpdateRecord session update message timestamp
    (mapSet sessions sessionId nextSession, Except.ok nextSession)

/-- Model of `SessionService.assertRequirementsMatch`: collect the mismatching
field names among asset, network, payTo, maxAmountRequired and throw (return
`some message`) when any differ. -/
def assertRequirementsMatch (expected actual : Requirement) : Option String :=
  let mismatch : List String :=
    (if expected.asset ≠ actual.asset then ["asset"] else []) ++
    (if expected.network ≠ actual.network then ["network"] else []) ++
    (if expected.payTo ≠ actual.payTo then ["payTo"] else []) ++
    (if expected.maxAmountRequired ≠ actual.maxAmountRequired then ["maxAmountRequired"] else [])
  if mismatch.isEmpty then none
  else some ("Payment requirements mismatch for session: " ++ String.intercalate ", " mismatch)

/-- Outcome of `T2VOrchestrator.submitPaidRequest` as observed by
`confirmPayment`: the awaited call either threw, or resolved with an optional
`request_id`. -/
inductive SubmitOutcome : Type
  | threw : String → SubmitOutcome
  | ok : Option String → SubmitOutcome
deriving DecidableEq

/-- Model of `SessionService.confirmPayment`.  The result carries both the
post-call session map (mutations performed before a throw are kept, exactly
as with the in-place `Map` of the source) and the outcome: `Except.error` for
a thrown error, `Except.ok` for the returned session.  `t1`/`t2` are the
timestamps of the two `applyUpdate` calls.  Note the source performs no
terminal-status check before re-processing a session. -/
def confirmPayment (sessions : SvcMap) (sessionId : String) (payload : String)
    (requirements : Requirement) (submit : SubmitOutcome) (t1 t2 : Nat) :
    SvcMap × Except String SvcSessionRecord :=
  match mapGet sessions sessionId with
  | none => (sessions, Except.error ("Session " ++ sessionId ++ " not found."))
  | some session =>
    match assertRequirementsMatch session.requirement requirements with
    | some message => (sessions, Except.error message)
    | none =>
      let step1 := svcApplyUpdate sessions sessionId
        { status := some SvcStatus.payment_confirmed, lastPaymentPayload := some payload }
        "Payment confirmed. Preparing SamsarOne request." t1
      match step1.2 with
      | Except.error e => (step1.1, Except.error e)
      | Except.ok _ =>
        match submit with
        | SubmitOutcome.threw message => (step1.1, Except.error message)
        | SubmitOutcome.ok none =>
          (step1.1, Except.error "SamsarOne response did not include a request_id.")
        | SubmitOutcome.ok (some requestId) =>
          svcApplyUpdate step1.1 sessionId
            { status := some SvcStatus.creation_pending, samsarRequestId := some requestId }
            ("SamsarOne request accepted. Request ID " ++ requestId ++ ".") t2

/-- State-machine of §4.2 of the specification, used to check the audit-trail
claim: `payment_pending → payment_confirmed → creation_pending →
creation_in_progress → completed`, with `failed` reachable from any
non-terminal state.  Modelled from the spec (the source has no transition
guard), for comparison against the recorded history. -/
def validTransition : SvcStatus → SvcStatus → Bool
  | SvcStatus.payment_pending, SvcStatus.payment_confirmed => true
  | SvcStatus.payment_confirmed, SvcStatus.creation_pending => true
  | SvcStatus.creation_pending, SvcStatus.creation_in_progress => true
  | SvcStatus.creation_in_progress, SvcStatus.completed => true
  | SvcStatus.payment_pending, SvcStatus.failed => true
  | SvcStatus.payment_confirmed, SvcStatus.failed => true
  | SvcStatus.creation_pending, SvcStatus.failed => true
  | SvcStatus.creation_in_progress, SvcStatus.failed => true
  | _, _ => false

/-! ## PaymentCoordinator (proxy variant, `src/proxy/src/services/PaymentCoordinator.ts`)

The push-model coordinator over the proxy's five-state machine.  The
facilitator's `verifyPayment`/`settlePayment` and the Samsar submission are
awaited external calls, modelled by `Call` outcomes (resolved value or thrown
message).  Receipts are carried as opaque strings. -/

inductive PStatus : Type
  | payment_pending | payment_verified | forwarding | forwarded | failed
deriving DecidableEq

structure PEntry where
  status : PStatus
  timestamp : Nat
  message : String
deriving DecidableEq

structure PError where
  stage : String
  message : String
deriving DecidableEq

structure PRecord where
  id : String
  status : PStatus
  createdAt : Nat := 0
  updatedAt : Nat := 0
  requirement : Requirement
  events : List PEntry
  paymentPayload : Option String := none
  verificationReceipt : Option String := none
  settlementReceipt : Option String := none
  samsarRequestId : Option String := none
  error : Option PError := none
deriving DecidableEq

abbrev PMap := List (String × PRecord)

/-- Outcome of an awaited external call: resolved value or thrown message. -/
inductive Call (α : Type) : Type
  | ok : α → Call α
  | threw : String → Call α

/-- Errors surfaced by the coordinator: an `HttpError` with a status code, or
an arbitrary error thrown by a collaborator and propagated unwrapped. -/
inductive CoordError : Type
  | httpError : Nat → String → CoordError
  | thrown : String → CoordError
deriving DecidableEq

structure WalletEventPayload where
  sessionId : String
  paymentPayload : String := ""
  paymentRequirements : Option Requirement := none
  skipSettlement : Option Bool := none
deriving DecidableEq

/-- Model of `PaymentCoordinator.assertRequirementMatches`: compare the keys
scheme, network, maxAmountRequired, payTo, asset, resource in order and throw
an `HttpError 400` at the first disagreement. -/
def assertRequirementMatches (expected actual : Requirement) : Option String :=
  if expected.scheme ≠ actual.scheme then some "Payment requirement mismatch for scheme"
  else if expected.network ≠ actual.network then some "Payment requirement mismatch for network"
  else if expected.maxAmountRequired ≠ actual.maxAmountRequired then
    some "Payment requirement mismatch for maxAmountRequired"
  else if expected.payTo ≠ actual.payTo then some "Payment requirement mismatch for payTo"
  else if expected.asset ≠ actual.asset then some "Payment requirement mismatch for asset"
  else if expected.resource ≠ actual.resource then some "Payment requirement mismatch for resource"
  else none

/-- Model of `PaymentCoordinator.buildEvent`. -/
def buildEvent (status : PStatus) (message : String) (timestamp : Nat) : PEntry :=
  { status := status, message := message, timestamp := timestamp }

/-- Result of `SamsarClient.submitCreate` as consumed by `forwardToSamsar`. -/
structure SamsarSubmissionResult where
  requestId : Option String := none
deriving DecidableEq

/-- Record update applied by the first `store.update` of `forwardToSamsar`. -/
def forwardingRecordOf (record : PRecord) (t1 : Nat) : PRecord :=
  { record with
    status := PStatus.forwarding
    updatedAt := t1
    events := record.events ++
      [buildEvent PStatus.forwarding "Payment confirmed. Forwarding to SamsarOne." t1] }

/-- Record update applied by `handleForwardingSuccess`. -/
def forwardedRecordOf (record : PRecord) (submission : SamsarSubmissionResult)
    (t1 t2 : Nat) : PRecord :=
  { forwardingRecordOf record t1 with
    status := PStatus.forwarded
    updatedAt := t2
    samsarRequestId := submission.requestId
    events := (forwardingRecordOf record t1).events ++
      [buildEvent PStatus.forwarded "Payload forwarded to SamsarOne." t2] }

/-- Record update applied by `handleForwardingFailure`. -/
def forwardFailedRecordOf (record : PRecord) (message : String) (t1 t2 : Nat) : PRecord :=
  { forwardingRecordOf record t1 with
    status := PStatus.failed
    updatedAt := t2
    error := some { stage := "forwarding", message := message }
    events := (forwardingRecordOf record t1).events ++
      [buildEvent PStatus.failed "Forwarding to SamsarOne failed." t2] }

/-- Model of `PaymentCoordinator.forwardToSamsar`: mark the session
`forwarding`, submit, then mark `forwarded` on success or `failed` (with the
error recorded under `error`) when the submission throws. -/
def forwardToSamsar (store : PMap) (sessionId : String)
    (submit : Call SamsarSubmissionResult) (t1 t2 : Nat) :
    PMap × Except CoordError PRecord :=
  match mapGet store sessionId with
  | none => (store, Except.error (CoordError.thrown ("Session " ++ sessionId ++ " not found")))
  | some record =>
    let store1 := mapSet store sessionId (forwardingRecordOf record t1)
    match submit with
    | Call.ok submission =>
      (mapSet store1 sessionId (forwardedRecordOf record submission t1 t2),
       Except.ok (forwardedRecordOf record submission t1 t2))
    | Call.threw message =>
      (mapSet store1 sessionId (forwardFailedRecordOf record message t1 t2),
       Except.ok (forwardFailedRecordOf record message t1 t2))

/-- Record update applied by the `store.update` of `recordWalletEvent` once
verification (and optional settlement) resolved. -/
def verifiedSessionOf (session : PRecord) (event : WalletEventPayload)
    (verificationRecord : String) (settlementReceipt : Option String) (t1 : Nat) : PRecord :=
  { session with
    status := PStatus.payment_verified
    updatedAt := t1
    paymentPayload := some event.paymentPayload
    verificationReceipt := some verificationRecord
    settlementReceipt := settlementReceipt
    events := session.events ++
      [buildEvent PStatus.payment_verified "Payment verified via facilitator." t1] }

/-- Model of `PaymentCoordinator.recordWalletEvent`.  `autoSettle`/`autoSubmit`
are the `behavior.autoSettlePayments`/`behavior.autoSubmitOnPayment` flags;
`verify`, `settle` and `submit` the outcomes of the awaited facilitator and
Samsar calls.  A session already `forwarded` or `forwarding` is returned
unchanged before any other check; the verification result's content is
recorded but never inspected for success. -/
def recordWalletEvent (store : PMap) (event : WalletEventPayload)
    (autoSettle autoSubmit : Bool) (verify : Call String) (settle : Call String)
    (submit : Call SamsarSubmissionResult) (t1 t2 t3 : Nat) :
    PMap × Except CoordError PRecord :=
  if event.sessionId = "" then
    (store, Except.error (CoordError.httpError 400 "sessionId is required in wallet events"))
  else
    match mapGet store event.sessionId with
    | none =>
      (store, Except.error
        (CoordError.httpError 404 ("Session " ++ event.sessionId ++ " not found")))
    | some session =>
      if session.status = PStatus.forwarded ∨ session.status = PStatus.forwarding then
        (store, Except.ok session)
      else
        let requirement := (event.paymentRequirements).getD session.requirement
        match assertRequirementMatches session.requirement requirement with
        | some message => (store, Except.error (CoordError.httpError 400 message))
        | none =>
          match verify with
          | Call.threw message => (store, Except.error (CoordError.thrown message))
          | Call.ok verificationRecord =>
            let settled : Except CoordError (Option String) :=
              if autoSettle ∧ ¬(event.skipSettlement.getD false) then
                match settle with
                | Call.threw message => Except.error (CoordError.thrown message)
                | Call.ok receipt => Except.ok (some receipt)
              else Except.ok none
            match settled with
            | Except.error e => (store, Except.error e)
            | Except.ok settlementReceipt =>
              let verifiedSession :=
                verifiedSessionOf session event verificationRecord settlementReceipt t1
              let store1 := mapSet store event.sessionId verifiedSession
              if ¬autoSubmit then (store1, Except.ok verifiedSession)
              else forwardToSamsar store1 event.sessionId submit t2 t3

/-! ## FileSessionStore (`src/proxy/src/storage/FileSessionStore.ts`)

The persistence layer is a `Map` cache mirrored to disk; the disk write is
asynchronous I/O and does not affect the cache semantics, so only the cache
is modelled.  `insert` is `cache.set(record.id, record)` — an unconditional
upsert with no duplicate check. -/

def storeInsert (cache : PMap) (record : PRecord) : PMap :=
  mapSet cache record.id record

def storeGet (cache : PMap) (id : String) : Option PRecord :=
  mapGet cache id

def storeUpdate (cache : PMap) (id : String) (updater : PRecord → PRecord) :
    PMap × Except String PRecord :=
  match mapGet cache id with
  | none => (cache, Except.error ("Session " ++ id ++ " not found"))
  | some existing =>
    let updated := updater existing
    (mapSet cache id updated, Except.ok updated)

/-! ## PaymentListenerService (`src/src/services/ServerConnect.ts`)

The on-chain detection engine.  Addresses are modelled as canonical strings:
`normalizeAddress` (viem's `getAddress`) is the identity on them, and
`safeNormalize` returns `none` exactly for the falsy (empty) string, which
stands for an absent or unparsable `payTo`.  Transaction hashes are `Nat`.
The chain RPC calls (`getBlockNumber`, `getLogs`) and the per-session
downstream submission are explicit outcome parameters. -/

inductive ListenerStatus : Type
  | pending | processing | completed | failed
deriving DecidableEq

structure ListenerSession where
  id : String
  payTo : String
  maxAmountRequired : Nat
  status : ListenerStatus
  transactionHash : Option Nat := none
  error : Option String := none
  response : Option String := none
deriving DecidableEq

structure NetworkState where
  lastBlock : Nat
  polling : Bool
  assets : List String
  sessionsByAsset : List (String × List String)
  processedTxHashes : List Nat
  timer : Bool
deriving DecidableEq

structure ListenerState where
  sessions : List (String × ListenerSession)
  networkStates : List (String × NetworkState)
deriving DecidableEq

structure TransferLog where
  transactionHash : Option Nat
  address : String
  toAddr : Option String
  value : Option Nat
deriving DecidableEq

/-- Result of the `apiClient.createVideo` call made for a detected payment:
a response carrying a truthy `request_id`, a response carrying a `message`,
any other response shape, or a thrown error. -/
inductive ApiResult : Type
  | okId : String → ApiResult
  | errMsg : String → ApiResult
  | unknown : ApiResult
  | threw : String → ApiResult
deriving DecidableEq

def safeNormalize (value : String) : Option String :=
  if value = "" then none else some value

/-- Shared body of `cleanupSession` acting on one worker's state: drop the
session id from the asset's set; when that set empties, stop watching the
asset.  The returned flag says whether the worker must be discarded (zero
assets left and a timer to cancel). -/
def cleanupNet (ns : NetworkState) (sessionId asset : String) : NetworkState × Bool :=
  let updated :=
    match mapGet ns.sessionsByAsset asset with
    | none => (ns.sessionsByAsset, ns.assets)
    | some ids =>
      let remaining := ids.erase sessionId
      if remaining = [] then (mapDel ns.sessionsByAsset asset, ns.assets.erase asset)
      else (mapSet ns.sessionsByAsset asset remaining, ns.assets)
  let ns1 : NetworkState := { ns with sessionsByAsset := updated.1, assets := updated.2 }
  (ns1, decide (updated.2 = []) && ns.timer)

/-- Model of `PaymentListenerService.cleanupSession` acting on the registry:
delete the session record, clean the worker's indexes, and when the worker
watches zero assets cancel its timer and discard it from `networkStates`. -/
def cleanupSession (st : ListenerState) (sessionId network asset : String) : ListenerState :=
  let sessions1 := mapDel st.sessions sessionId
  match mapGet st.networkStates network with
  | none => { sessions := sessions1, networkStates := st.networkStates }
  | some ns =>
    let cleaned := cleanupNet ns sessionId asset
    if cleaned.2 then
      { sessions := sessions1, networkStates := mapDel st.networkStates network }
    else
      { sessions := sessions1, networkStates := mapSet st.networkStates network cleaned.1 }

/-- State carried through one scan: the session map, the worker's state as
captured by the local `state` alias of `pollNetwork`, and whether the worker
has already been discarded from the registry mid-scan (after which cleanup
only deletes session records, while the loop keeps reading the orphaned
alias — exactly the source's aliasing behaviour). -/
structure ScanCtx where
  sessions : List (String × ListenerSession)
  net : NetworkState
  deleted : Bool
deriving DecidableEq

def cleanupDuringScan (ctx : ScanCtx) (sessionId asset : String) : ScanCtx :=
  let sessions1 := mapDel ctx.sessions sessionId
  if ctx.deleted then { ctx with sessions := sessions1 }
  else
    let cleaned := cleanupNet ctx.net sessionId asset
    { sessions := sessions1, net := cleaned.1, deleted := cleaned.2 }

/-- Model of `handlePaymentDetected`: mark the session `processing`, attach
the transaction hash, submit the stored request downstream, record the
terminal outcome, and always clean the session up. -/
def handlePaymentDetected (ctx : ScanCtx) (s : ListenerSession)
    (transactionHash : Option Nat) (asset : String) (api : String → ApiResult) : ScanCtx :=
  let s1 := { s with status := ListenerStatus.processing, transactionHash := transactionHash }
  let ctx1 := { ctx with sessions := mapSet ctx.sessions s.id s1 }
  match api s.id with
  | ApiResult.okId requestId =>
    let s2 := { s1 with status := ListenerStatus.completed, response := some requestId }
    cleanupDuringScan { ctx1 with sessions := mapSet ctx1.sessions s.id s2 } s.id asset
  | ApiResult.errMsg message =>
    let s2 := { s1 with status := ListenerStatus.failed, error := some message }
    cleanupDuringScan { ctx1 with sessions := mapSet ctx1.sessions s.id s2 } s.id asset
  | ApiResult.unknown =>
    let failureMessage := "Unknown response received from SamsarOne."
    let s2 := { s1 with status := ListenerStatus.failed, error := some failureMessage }
    cleanupDuringScan { ctx1 with sessions := mapSet ctx1.sessions s.id s2 } s.id asset
  | ApiResult.threw message =>
    let s2 := { s1 with status := ListenerStatus.failed, error := some message }
    cleanupDuringScan { ctx1 with sessions := mapSet ctx1.sessions s.id s2 } s.id asset

/-- Sequential `continue` guards of the inner loop of `pollNetwork`, folded
into one conjunction (the guards are pure, in source order: still `pending`,
a normalizable `payTo` equal to the transfer's recipient, and a transferred
value at least the required amount). -/
def sessionMatches (session : ListenerSession) (toAddress : String) (value : Nat) : Bool :=
  decide (session.status = ListenerStatus.pending) &&
    (match safeNormalize session.payTo with
     | none => false
     | some payTo => decide (payTo = toAddress)) &&
    decide (session.maxAmountRequired ≤ value)

/-- Per-session body of the inner loop of `pollNetwork`: a session is
offered to the confirmation path exactly when `sessionMatches` holds of it.
The second component records the confirmation attempt, as a
(session id, transaction hash) pair. -/
def tryMatch (ctx : ScanCtx) (sessionId toAddress : String) (value : Nat)
    (transactionHash : Option Nat) (asset : String) (api : String → ApiResult) :
    ScanCtx × List (String × Option Nat) :=
  match mapGet ctx.sessions sessionId with
  | none => (ctx, [])
  | some session =>
    if sessionMatches session toAddress value then
      (handlePaymentDetected ctx session transactionHash asset api,
       [(sessionId, transactionHash)])
    else (ctx, [])

/-- Session maps of the listener are keyed by the stored session's own id
(`this.sessions.set(sessionId, session)` always stores the record under its
own id). -/
def WellKeyed (sessions : List (String × ListenerSession)) : Prop :=
  ∀ k r, mapGet sessions k = some r → r.id = k

/-- Inner loop of `pollNetwork` over the snapshot (`Array.from`) of the
asset's session-id set. -/
def matchLoop (ctx : ScanCtx) (ids : List String) (toAddress : String) (value : Nat)
    (transactionHash : Option Nat) (asset : String) (api : String → ApiResult) :
    ScanCtx × List (String × Option Nat) :=
  match ids with
  | [] => (ctx, [])
  | sessionId :: rest =>
    let step := tryMatch ctx sessionId toAddress value transactionHash asset api
    let restResult := matchLoop step.1 rest toAddress value transactionHash asset api
    (restResult.1, step.2 ++ restResult.2)

/-- Per-log body of `pollNetwork`: skip logs whose transaction hash was
already processed, otherwise mark the hash processed, resolve the asset's
waiting sessions and the recipient, and run the matching loop. -/
def processLog (ctx : ScanCtx) (log : TransferLog) (api : String → ApiResult) :
    ScanCtx × List (String × Option Nat) :=
  let alreadyProcessed : Bool :=
    match log.transactionHash with
    | some h => decide (h ∈ ctx.net.processedTxHashes)
    | none => false
  if alreadyProcessed then (ctx, [])
  else
    let net1 :=
      match log.transactionHash with
      | some h => { ctx.net with processedTxHashes := setInsertNat ctx.net.processedTxHashes h }
      | none => ctx.net
    let ctx1 : ScanCtx := { ctx with net := net1 }
    match mapGet ctx1.net.sessionsByAsset log.address with
    | none => (ctx1, [])
    | some ids =>
      if ids = [] then (ctx1, [])
      else
        match log.toAddr with
        | none => (ctx1, [])
        | some recipientArg =>
          if recipientArg = "" then (ctx1, [])
          else
            matchLoop ctx1 ids recipientArg ((log.value).getD 0) log.transactionHash
              log.address api

def processLogs (ctx : ScanCtx) (logs : List TransferLog) (api : String → ApiResult) :
    ScanCtx × List (String × Option Nat) :=
  match logs with
  | [] => (ctx, [])
  | log :: rest =>
    let step := processLog ctx log api
    let restResult := processLogs step.1 rest api
    (restResult.1, step.2 ++ restResult.2)

/-- Model of one `pollNetwork` tick.  `height` and `logsFetch` are the chain
RPC outcomes.  The guards (`polling` flag, empty watch set, unchanged block
height) leave the state untouched; note that `lastBlock` is assigned the new
height before the log fetch, so a thrown log fetch still leaves `lastBlock`
advanced.  The returned list records the confirmation attempts of the tick. -/
def pollNetworkTick (st : ListenerState) (network : String) (height : Call Nat)
    (logsFetch : Call (List TransferLog)) (api : String → ApiResult) :
    ListenerState × List (String × Option Nat) :=
  match mapGet st.networkStates network with
  | none => (st, [])
  | some ns =>
    if ns.polling then (st, [])
    else if ns.assets = [] then (st, [])
    else
      match height with
      | Call.threw _ => (st, [])
      | Call.ok latestBlock =>
        if latestBlock ≤ ns.lastBlock then (st, [])
        else
          let ns1 := { ns with lastBlock := latestBlock }
          match logsFetch with
          | Call.threw _ =>
            ({ st with networkStates := mapSet st.networkStates network ns1 }, [])
          | Call.ok logs =>
            let scanned := processLogs { sessions := st.sessions, net := ns1, deleted := false }
              logs api
            let registry :=
              if scanned.1.deleted then mapDel st.networkStates network
              else mapSet st.networkStates network scanned.1.net
            ({ sessions := scanned.1.sessions, networkStates := registry }, scanned.2)

/-! ## Fixtures

Concrete values used by the closed witness and counterexample theorems. -/

def reqA : Requirement :=
  { scheme := "exact", network := "base-sepolia", maxAmountRequired := "300",
    resource := "r", payTo := "0xAAA", asset := "usdc" }

def reqBadAsset : Requirement := { reqA with asset := "dai" }

def pRec0 : PRecord :=
  { id := "s1", status := PStatus.payment_pending, requirement := reqA,
    events := [buildEvent PStatus.payment_pending "Session created. Awaiting payment." 0] }

def pRec1 : PRecord := { pRec0 with status := PStatus.failed }

def pRecForwarding : PRecord := { pRec0 with status := PStatus.forwarding }

def pRecForwarded : PRecord := { pRec0 with status := PStatus.forwarded }

def pRecFailed : PRecord := { pRec0 with status := PStatus.failed }

def svcCreatedEntry : SvcHistoryEntry :=
  { status := SvcStatus.payment_pending, message := "Session created. Awaiting payment.",
    timestamp := 0 }

def svcPending : SvcSessionRecord :=
  { id := "s1", status := SvcStatus.payment_pending, requirement := reqA,
    history := [svcCreatedEntry] }

def svcCompleted : SvcSessionRecord :=
  { id := "s1", status := SvcStatus.completed, requirement := reqA,
    history := [svcCreatedEntry,
      { status := SvcStatus.completed, message := "SamsarOne processing completed.",
        timestamp := 5 }] }

def ls1 : ListenerSession :=
  { id := "p1", payTo := "0xAAA", maxAmountRequired := 300, status := ListenerStatus.pending }

def ls2 : ListenerSession := { ls1 with id := "p2" }

def nsOne : NetworkState :=
  { lastBlock := 5, polling := false, assets := ["tok"],
    sessionsByAsset := [("tok", ["p1"])], processedTxHashes := [], timer := true }

def nsTwo : NetworkState := { nsOne with sessionsByAsset := [("tok", ["p1", "p2"])] }

def lst1 : ListenerState :=
  { sessions := [("p1", ls1)], networkStates := [("base", nsOne)] }

def lst2 : ListenerState :=
  { sessions := [("p1", ls1), ("p2", ls2)], networkStates := [("base", nsTwo)] }

def logA : TransferLog :=
  { transactionHash := some 7, address := "tok", toAddr := some "0xAAA", value := some 300 }

def logUnder : TransferLog :=
  { transactionHash := some 7, address := "tok", toAddr := some "0xAAA", value := some 100 }

def apiOkFixture : String → ApiResult := fun _ => ApiResult.okId "rid"

def nsOneSeen : NetworkState := { nsOne with processedTxHashes := [7] }

def scanCtx1 : ScanCtx := { sessions := lst1.sessions, net := nsOne, deleted := false }

def scanCtx1Seen : ScanCtx := { sessions := lst1.sessions, net := nsOneSeen, deleted := false }

def scanCtx2 : ScanCtx := { sessions := lst2.sessions, net := nsTwo, deleted := false }

/-! # Theorems -/

/-! ## Association-list map lemmas -/

theorem mapGet_mapSet_self {α : Type} (m : List (String × α)) (k : String) (v : α) :
    mapGet (mapSet m k v) k = some v := by
  induction m with
  | nil => simp [mapSet, mapGet]
  | cons hd tl ih =>
    obtain ⟨k0, v0⟩ := hd
    by_cases h : k0 = k
    · simp [mapSet, h, mapGet]
    · simp [mapSet, h, mapGet, ih]

theorem mapGet_mapSet_ne {α : Type} (m : List (String × α)) (k k' : String) (v : α)
    (h : k' ≠ k) : mapGet (mapSet m k v) k' = mapGet m k' := by
  induction m with
  | nil => simp [mapSet, mapGet, Ne.symm h]
  | cons hd tl ih =>
    obtain ⟨k0, v0⟩ := hd
    by_cases hk : k0 = k
    · subst hk
      simp [mapSet, mapGet, Ne.symm h]
    · simp only [mapSet, if_neg hk, mapGet, ih]

theorem mapGet_mapDel_self {α : Type} (m : List (String × α)) (k : String) :
    mapGet (mapDel m k) k = none := by
  induction m with
  | nil => simp [mapDel, mapGet]
  | cons hd tl ih =>
    obtain ⟨k0, v0⟩ := hd
    by_cases h : k0 = k
    · simp [mapDel, h, ih]
    · simp [mapDel, mapGet, h, ih]

theorem mapGet_mapDel_ne {α : Type} (m : List (String × α)) (k k' : String)
    (h : k' ≠ k) : mapGet (mapDel m k) k' = mapGet m k' := by
  induction m with
  | nil => simp [mapDel, mapGet]
  | cons hd tl ih =>
    obtain ⟨k0, v0⟩ := hd
    by_cases hk : k0 = k
    · subst hk
      simp [mapDel, mapGet, Ne.symm h, ih]
    · simp [mapDel, mapGet, hk, ih]

/-! ## C8 — SessionStore.insert and duplicate ids -/

/-- C8 counterexample.  `FileSessionStore.insert` does not fail on a
duplicate id: inserting a record whose id is already present succeeds and
silently replaces the previously stored session, so the claimed
`DuplicateId` failure does not exist and the prior session is not left
unchanged. -/
theorem insert_overwrites_existing_id_without_error :
    storeInsert [("s1", pRec0)] pRec1 = [("s1", pRec1)] ∧
    storeGet (storeInsert [("s1", pRec0)] pRec1) "s1" = some pRec1 ∧
    pRec1 ≠ pRec0 := by
  refine ⟨rfl, rfl, ?_⟩
  decide

/-- C8 amended.  `FileSessionStore.insert(record)` never fails: it has upsert
semantics, unconditionally storing `record` under `record.id` (overwriting
any previously stored session with that id) and leaving every other id's
binding unchanged. -/
theorem insert_upsert_semantics (cache : PMap) (record : PRecord) (otherId : String)
    (h : otherId ≠ record.id) :
    storeGet (storeInsert cache record) record.id = some record ∧
    storeGet (storeInsert cache record) otherId = storeGet cache otherId := by
  refine ⟨?_, ?_⟩
  · simpa [storeInsert, storeGet] using mapGet_mapSet_self cache record.id record
  · simpa [storeInsert, storeGet] using mapGet_mapSet_ne cache record.id otherId record h

/-- Witness for `insert_upsert_semantics` at a concrete store and record. -/
theorem insert_upsert_witness :
    storeGet (storeInsert [("s1", pRec0)] pRec1) pRec1.id = some pRec1 ∧
    storeGet (storeInsert [("s1", pRec0)] pRec1) "zz" = storeGet [("s1", pRec0)] "zz" :=
  insert_upsert_semantics [("s1", pRec0)] pRec1 "zz" (by decide)

/-! ## C10 — T2V duration clamping and quote total -/

/-- C10.  The duration entering the quote is clamped before pricing: a
missing, `NaN`, or non-positive duration becomes the 30-second default; a
positive duration is floored and capped at 180; a duration above 180 prices
identically to 180; and the quoted `totalCredits` always equals
`Math.round(durationSeconds * rateCreditsPerSecond * imageModelMultiplier)`. -/
theorem t2v_duration_clamping_and_total :
    (∀ i : T2VCreateVideoInput, i.duration = none →
      (calculateT2VCostBreakdown i).durationSeconds = 30) ∧
    (∀ i : T2VCreateVideoInput, i.duration = some JSNum.nan →
      (calculateT2VCostBreakdown i).durationSeconds = 30) ∧
    (∀ (i : T2VCreateVideoInput) (q : ℚ), i.duration = some (JSNum.val q) → q ≤ 0 →
      (calculateT2VCostBreakdown i).durationSeconds = 30) ∧
    (∀ (i : T2VCreateVideoInput) (q : ℚ), i.duration = some (JSNum.val q) → 0 < q →
      (calculateT2VCostBreakdown i).durationSeconds = min (Int.toNat ⌊q⌋) 180) ∧
    (∀ (i : T2VCreateVideoInput) (q : ℚ), i.duration = some (JSNum.val q) → 180 < q →
      (calculateT2VCostBreakdown i).totalCredits =
        (calculateT2VCostBreakdown { i with duration := some (JSNum.val 180) }).totalCredits) ∧
    (∀ i : T2VCreateVideoInput,
      (calculateT2VCostBreakdown i).totalCredits =
        jsRound (((calculateT2VCostBreakdown i).durationSeconds : ℚ) *
          ((calculateT2VCostBreakdown i).rateCreditsPerSecond : ℚ) *
          (calculateT2VCostBreakdown i).imageModelMultiplier)) := by
  refine ⟨?_, ?_, ?_, ?_, ?_, ?_⟩
  · intro i h
    simp [calculateT2VCostBreakdown, coerceDurationSeconds, h, DEFAULT_DURATION_SECONDS]
  · intro i h
    simp [calculateT2VCostBreakdown, coerceDurationSeconds, h, DEFAULT_DURATION_SECONDS]
  · intro i q h hq
    simp [calculateT2VCostBreakdown, coerceDurationSeconds, h, hq, DEFAULT_DURATION_SECONDS]
  · intro i q h hq
    simp [calculateT2VCostBreakdown, coerceDurationSeconds, h, not_le.mpr hq,
      MAX_DURATION_SECONDS]
  · intro i q h hq
    have hq0 : ¬ q ≤ 0 := by linarith
    have hfloor : (180 : ℤ) ≤ ⌊q⌋ := Int.le_floor.mpr (by exact_mod_cast hq.le)
    have h180 : Int.toNat ⌊q⌋ ≥ 180 := by omega
    have hcoe : coerceDurationSeconds (some (JSNum.val q)) = 180 := by
      simp only [coerceDurationSeconds, if_neg hq0, MAX_DURATION_SECONDS]
      omega
    have hfl : ⌊(180 : ℚ)⌋ = 180 := by norm_num
    have hcoe' : coerceDurationSeconds (some (JSNum.val 180)) = 180 := by
      simp [coerceDurationSeconds, MAX_DURATION_SECONDS, hfl]
    simp [calculateT2VCostBreakdown, h, hcoe, hcoe']
  · intro i
    simp [calculateT2VCostBreakdown]

/-- Witness for `t2v_duration_clamping_and_total` at concrete durations. -/
theorem t2v_duration_clamping_witness :
    (calculateT2VCostBreakdown { duration := none }).durationSeconds = 30 ∧
    (calculateT2VCostBreakdown { duration := some JSNum.nan }).durationSeconds = 30 ∧
    (calculateT2VCostBreakdown { duration := some (JSNum.val (-1)) }).durationSeconds = 30 ∧
    (calculateT2VCostBreakdown { duration := some (JSNum.val (91 / 2)) }).durationSeconds =
      min (Int.toNat ⌊(91 / 2 : ℚ)⌋) 180 ∧
    (calculateT2VCostBreakdown { duration := some (JSNum.val 200) }).totalCredits =
      (calculateT2VCostBreakdown { duration := some (JSNum.val 180) }).totalCredits :=
  ⟨t2v_duration_clamping_and_total.1 _ rfl,
   t2v_duration_clamping_and_total.2.1 _ rfl,
   t2v_duration_clamping_and_total.2.2.1 _ _ rfl (by norm_num),
   t2v_duration_clamping_and_total.2.2.2.1 _ _ rfl (by norm_num),
   t2v_duration_clamping_and_total.2.2.2.2.1 _ _ rfl (by norm_num)⟩

/-! ## Requirement-matching lemmas -/

theorem assertRequirementsMatch_eq_none_iff (e a : Requirement) :
    assertRequirementsMatch e a = none ↔
      (e.asset = a.asset ∧ e.network = a.network ∧ e.payTo = a.payTo ∧
       e.maxAmountRequired = a.maxAmountRequired) := by
  unfold assertRequirementsMatch
  by_cases h1 : e.asset = a.asset <;> by_cases h2 : e.network = a.network <;>
    by_cases h3 : e.payTo = a.payTo <;>
    by_cases h4 : e.maxAmountRequired = a.maxAmountRequired <;>
    simp [h1, h2, h3, h4]

theorem assertRequirementMatches_eq_none_iff (e a : Requirement) :
    assertRequirementMatches e a = none ↔
      (e.scheme = a.scheme ∧ e.network = a.network ∧ e.maxAmountRequired = a.maxAmountRequired ∧
       e.payTo = a.payTo ∧ e.asset = a.asset ∧ e.resource = a.resource) := by
  unfold assertRequirementMatches
  by_cases h1 : e.scheme = a.scheme <;> by_cases h2 : e.network = a.network <;>
    by_cases h3 : e.maxAmountRequired = a.maxAmountRequired <;>
    by_cases h4 : e.payTo = a.payTo <;> by_cases h5 : e.asset = a.asset <;>
    by_cases h6 : e.resource = a.resource <;>
    simp [h1, h2, h3, h4, h5, h6]

/-! ## C1 — idempotence against terminal sessions -/

/-- C1 counterexample.  `SessionService.confirmPayment` performs no
terminal-status check: calling it on a session that is already `completed`
(with the session's own stored requirement and a successful submission)
re-processes the session, transitioning it to `creation_pending` and
appending two further history entries, instead of returning the terminal
session unchanged. -/
theorem confirmPayment_reprocesses_completed_session :
    svcCompleted.status = SvcStatus.completed ∧
    svcCompleted.history.length = 2 ∧
    (confirmPayment [("s1", svcCompleted)] "s1" "proof" reqA
        (SubmitOutcome.ok (some "rid")) 10 11).2.map
        (fun s => (s.status, s.history.length)) =
      Except.ok (SvcStatus.creation_pending, 4) := by
  refine ⟨rfl, rfl, ?_⟩
  rfl

/-- C1 amended.  Only `PaymentCoordinator.recordWalletEvent` has a
no-op guard, and it covers exactly the statuses `forwarded` and `forwarding`
(so the non-terminal `forwarding` state is also short-circuited while the
terminal `failed` state is not): a session in either of those two statuses is
returned unchanged, with no state transition, no history entry, and an
untouched store.  `SessionService.confirmPayment` has no such guard at all. -/
theorem recordWalletEvent_noop_on_forwarded_or_forwarding
    (store : PMap) (event : WalletEventPayload) (autoSettle autoSubmit : Bool)
    (verify settle : Call String) (submit : Call SamsarSubmissionResult)
    (t1 t2 t3 : Nat) (session : PRecord)
    (hne : event.sessionId ≠ "")
    (hget : mapGet store event.sessionId = some session)
    (hstatus : session.status = PStatus.forwarded ∨ session.status = PStatus.forwarding) :
    recordWalletEvent store event autoSettle autoSubmit verify settle submit t1 t2 t3 =
      (store, Except.ok session) := by
  simp [recordWalletEvent, hne, hget, hstatus]

/-- Witness for `recordWalletEvent_noop_on_forwarded_or_forwarding` at a
concrete forwarded session and a mismatching event requirement. -/
theorem recordWalletEvent_noop_witness :
    recordWalletEvent [("s1", pRecForwarded)]
        { sessionId := "s1", paymentPayload := "p", paymentRequirements := some reqBadAsset }
        true true (Call.ok "v") (Call.ok "s") (Call.ok { requestId := some "r" }) 1 2 3 =
      ([("s1", pRecForwarded)], Except.ok pRecForwarded) :=
  recordWalletEvent_noop_on_forwarded_or_forwarding _ _ _ _ _ _ _ _ _ _ _
    (by decide) rfl (Or.inl rfl)

/-! ## C2 — requirement mismatch rejection -/

/-- C2 counterexample.  A `PaymentCoordinator` session in the non-terminal
`forwarding` status is returned unchanged before the requirement check runs:
confirming it with a requirement whose asset disagrees with the stored one
does not fail with a mismatch error and performs no check at all. -/
theorem recordWalletEvent_forwarding_skips_mismatch_check :
    pRecForwarding.status ≠ PStatus.forwarded ∧
    pRecForwarding.status ≠ PStatus.failed ∧
    assertRequirementMatches pRecForwarding.requirement reqBadAsset ≠ none ∧
    recordWalletEvent [("s1", pRecForwarding)]
        { sessionId := "s1", paymentPayload := "p", paymentRequirements := some reqBadAsset }
        true true (Call.ok "v") (Call.ok "s") (Call.ok { requestId := some "r" }) 1 2 3 =
      ([("s1", pRecForwarding)], Except.ok pRecForwarding) := by
  refine ⟨by decide, by decide, by decide, ?_⟩
  rfl

/-- C2 amended.  Confirming with a requirement that differs in any of asset,
network, payTo, or maxAmountRequired fails with a requirement-mismatch error
and leaves the store exactly as it was — for every session in
`SessionService.confirmPayment`, and for every `PaymentCoordinator` session
whose status is neither `forwarding` nor `forwarded` (those two are returned
unchanged before the check runs). -/
theorem requirement_mismatch_rejected_and_state_preserved :
    (∀ (sessions : SvcMap) (sessionId payload : String) (session : SvcSessionRecord)
       (req : Requirement) (submit : SubmitOutcome) (t1 t2 : Nat),
      mapGet sessions sessionId = some session →
      (session.requirement.asset ≠ req.asset ∨ session.requirement.network ≠ req.network ∨
       session.requirement.payTo ≠ req.payTo ∨
       session.requirement.maxAmountRequired ≠ req.maxAmountRequired) →
      ∃ message, assertRequirementsMatch session.requirement req = some message ∧
        confirmPayment sessions sessionId payload req submit t1 t2 =
          (sessions, Except.error message)) ∧
    (∀ (store : PMap) (event : WalletEventPayload) (session : PRecord)
       (autoSettle autoSubmit : Bool) (verify settle : Call String)
       (submit : Call SamsarSubmissionResult) (t1 t2 t3 : Nat),
      event.sessionId ≠ "" →
      mapGet store event.sessionId = some session →
      session.status ≠ PStatus.forwarded → session.status ≠ PStatus.forwarding →
      (session.requirement.asset ≠ ((event.paymentRequirements).getD session.requirement).asset ∨
       session.requirement.network ≠
         ((event.paymentRequirements).getD session.requirement).network ∨
       session.requirement.payTo ≠ ((event.paymentRequirements).getD session.requirement).payTo ∨
       session.requirement.maxAmountRequired ≠
         ((event.paymentRequirements).getD session.requirement).maxAmountRequired) →
      ∃ message,
        assertRequirementMatches session.requirement
          ((event.paymentRequirements).getD session.requirement) = some message ∧
        recordWalletEvent store event autoSettle autoSubmit verify settle submit t1 t2 t3 =
          (store, Except.error (CoordError.httpError 400 message))) := by
  constructor
  · intro sessions sessionId payload session req submit t1 t2 hget hdiff
    have hne : assertRequirementsMatch session.requirement req ≠ none := by
      rw [Ne, assertRequirementsMatch_eq_none_iff]
      rcases hdiff with h | h | h | h <;> tauto
    obtain ⟨message, hmsg⟩ := Option.ne_none_iff_exists'.mp hne
    refine ⟨message, hmsg, ?_⟩
    simp only [confirmPayment, hget, hmsg]
  · intro store event session autoSettle autoSubmit verify settle submit t1 t2 t3
      hne hget hfd hfg hdiff
    have hmm : assertRequirementMatches session.requirement
        ((event.paymentRequirements).getD session.requirement) ≠ none := by
      rw [Ne, assertRequirementMatches_eq_none_iff]
      rcases hdiff with h | h | h | h <;> tauto
    obtain ⟨message, hmsg⟩ := Option.ne_none_iff_exists'.mp hmm
    refine ⟨message, hmsg, ?_⟩
    have hcond : ¬(session.status = PStatus.forwarded ∨ session.status = PStatus.forwarding) := by
      simp [hfd, hfg]
    simp only [recordWalletEvent, if_neg hne, hget, if_neg hcond, hmsg]

/-- Witness for `requirement_mismatch_rejected_and_state_preserved`: a
pending service session and a pending proxy session, each confirmed with a
requirement whose asset disagrees. -/
theorem requirement_mismatch_rejected_witness :
    (∃ message, assertRequirementsMatch svcPending.requirement reqBadAsset = some message ∧
      confirmPayment [("s1", svcPending)] "s1" "proof" reqBadAsset
          (SubmitOutcome.ok (some "rid")) 1 2 =
        ([("s1", svcPending)], Except.error message)) ∧
    (∃ message,
      assertRequirementMatches pRec0.requirement
        ((some reqBadAsset).getD pRec0.requirement) = some message ∧
      recordWalletEvent [("s1", pRec0)]
          { sessionId := "s1", paymentPayload := "p", paymentRequirements := some reqBadAsset }
          true true (Call.ok "v") (Call.ok "s") (Call.ok { requestId := some "r" }) 1 2 3 =
        ([("s1", pRec0)], Except.error (CoordError.httpError 400 message))) :=
  ⟨requirement_mismatch_rejected_and_state_preserved.1 _ _ "proof" _ _ _ 1 2 rfl
      (Or.inl (by decide)),
   requirement_mismatch_rejected_and_state_preserved.2 _
      { sessionId := "s1", paymentPayload := "p", paymentRequirements := some reqBadAsset }
      _ true true _ _ _ 1 2 3 (by decide) rfl (by decide) (by decide) (Or.inl (by decide))⟩

/-! ## C3 — failure recording -/

theorem forwardToSamsar_threw (store : PMap) (sessionId : String) (record : PRecord)
    (message : String) (t1 t2 : Nat) (hget : mapGet store sessionId = some record) :
    forwardToSamsar store sessionId (Call.threw message) t1 t2 =
      (mapSet (mapSet store sessionId (forwardingRecordOf record t1)) sessionId
        (forwardFailedRecordOf record message t1 t2),
       Except.ok (forwardFailedRecordOf record message t1 t2)) := by
  simp [forwardToSamsar, hget]

/-- C3 counterexample.  In `SessionService.confirmPayment`, when the
downstream call (`submitPaidRequest`, which performs facilitator
verification, settlement and the SamsarOne submission) throws, the error
propagates to the caller and the session is left stuck in the non-terminal
intermediate status `payment_confirmed`, with no `failed` transition, no
`failureReason` recorded, and no failure history entry. -/
theorem confirmPayment_submit_error_leaves_payment_confirmed :
    (confirmPayment [("s1", svcPending)] "s1" "proof" reqA
        (SubmitOutcome.threw "verification failed") 10 11).2 =
      Except.error "verification failed" ∧
    (mapGet (confirmPayment [("s1", svcPending)] "s1" "proof" reqA
        (SubmitOutcome.threw "verification failed") 10 11).1 "s1").map
        SvcSessionRecord.status = some SvcStatus.payment_confirmed ∧
    (mapGet (confirmPayment [("s1", svcPending)] "s1" "proof" reqA
        (SubmitOutcome.threw "verification failed") 10 11).1 "s1").map
        SvcSessionRecord.failureReason = some none :=
  ⟨rfl, rfl, rfl⟩

/-- C3 amended.  Only the downstream forwarding failure of
`PaymentCoordinator.forwardToSamsar` is recorded on the session: when the
Samsar submission throws during an auto-submitting `recordWalletEvent`, the
session is moved to `failed`, the failure message is stored under `error`, a
`failed` history entry is appended after `payment_verified` and `forwarding`
entries, and the failed session is what `getSession` subsequently returns.
Errors thrown by verification or settlement themselves, and any submission
error in `SessionService.confirmPayment`, instead propagate to the caller
and leave the session in its prior non-terminal state. -/
theorem forwarding_failure_marks_session_failed
    (store : PMap) (event : WalletEventPayload) (session : PRecord) (autoSettle : Bool)
    (vReceipt sReceipt message : String) (t1 t2 t3 : Nat)
    (hne : event.sessionId ≠ "")
    (hget : mapGet store event.sessionId = some session)
    (hfd : session.status ≠ PStatus.forwarded) (hfg : session.status ≠ PStatus.forwarding)
    (hreq : assertRequirementMatches session.requirement
      ((event.paymentRequirements).getD session.requirement) = none) :
    ∃ final : PRecord,
      (recordWalletEvent store event autoSettle true (Call.ok vReceipt) (Call.ok sReceipt)
          (Call.threw message) t1 t2 t3).2 = Except.ok final ∧
      final.status = PStatus.failed ∧
      final.error = some { stage := "forwarding", message := message } ∧
      final.events.map PEntry.status =
        session.events.map PEntry.status ++
          [PStatus.payment_verified, PStatus.forwarding, PStatus.failed] ∧
      mapGet (recordWalletEvent store event autoSettle true (Call.ok vReceipt)
          (Call.ok sReceipt) (Call.threw message) t1 t2 t3).1 event.sessionId = some final := by
  have hcond : ¬(session.status = PStatus.forwarded ∨ session.status = PStatus.forwarding) := by
    simp [hfd, hfg]
  have hsettled : ∀ r : Option String,
      ∃ final : PRecord,
        (forwardToSamsar
            (mapSet store event.sessionId (verifiedSessionOf session event vReceipt r t1))
            event.sessionId (Call.threw message) t2 t3).2 = Except.ok final ∧
        final.status = PStatus.failed ∧
        final.error = some { stage := "forwarding", message := message } ∧
        final.events.map PEntry.status =
          session.events.map PEntry.status ++
            [PStatus.payment_verified, PStatus.forwarding, PStatus.failed] ∧
        mapGet (forwardToSamsar
            (mapSet store event.sessionId (verifiedSessionOf session event vReceipt r t1))
            event.sessionId (Call.threw message) t2 t3).1 event.sessionId = some final := by
    intro r
    have hget1 : mapGet (mapSet store event.sessionId (verifiedSessionOf session event vReceipt r t1))
        event.sessionId = some (verifiedSessionOf session event vReceipt r t1) :=
      mapGet_mapSet_self _ _ _
    refine ⟨forwardFailedRecordOf (verifiedSessionOf session event vReceipt r t1) message t2 t3,
      ?_, rfl, rfl, ?_, ?_⟩
    · rw [forwardToSamsar_threw _ _ _ _ _ _ hget1]
    · simp [forwardFailedRecordOf, forwardingRecordOf, verifiedSessionOf, buildEvent]
    · rw [forwardToSamsar_threw _ _ _ _ _ _ hget1]
      exact mapGet_mapSet_self _ _ _
  by_cases hset : (autoSettle = true ∧ (event.skipSettlement.getD false) = false)
  · have := hsettled (some sReceipt)
    simpa [recordWalletEvent, if_neg hne, hget, if_neg hcond, hreq, hset] using this
  · have := hsettled none
    simpa [recordWalletEvent, if_neg hne, hget, if_neg hcond, hreq, hset] using this

/-- Witness for `forwarding_failure_marks_session_failed` at a concrete
pending proxy session whose Samsar submission throws. -/
theorem forwarding_failure_marks_session_failed_witness :
    ∃ final : PRecord,
      (recordWalletEvent [("s1", pRec0)] { sessionId := "s1", paymentPayload := "p" }
          true true (Call.ok "v") (Call.ok "s") (Call.threw "boom") 1 2 3).2 =
        Except.ok final ∧
      final.status = PStatus.failed ∧
      final.error = some { stage := "forwarding", message := "boom" } ∧
      final.events.map PEntry.status =
        pRec0.events.map PEntry.status ++
          [PStatus.payment_verified, PStatus.forwarding, PStatus.failed] ∧
      mapGet (recordWalletEvent [("s1", pRec0)] { sessionId := "s1", paymentPayload := "p" }
          true true (Call.ok "v") (Call.ok "s") (Call.threw "boom") 1 2 3).1 "s1" =
        some final :=
  forwarding_failure_marks_session_failed [("s1", pRec0)]
    { sessionId := "s1", paymentPayload := "p" } pRec0 true "v" "s" "boom" 1 2 3
    (by decide) rfl (by decide) (by decide) rfl

/-! ## C7 — history append discipline -/

/-- C7 counterexample.  The history's transition validity is not enforced:
re-confirming an already `completed` session appends a `payment_confirmed`
entry directly after the `completed` entry, which is not a valid transition
of the §4.2 state machine. -/
theorem history_records_invalid_transition_after_completed :
    (mapGet (confirmPayment [("s1", svcCompleted)] "s1" "proof" reqA
        (SubmitOutcome.ok (some "rid")) 10 11).1 "s1").map
        (fun s => s.history.map SvcHistoryEntry.status) =
      some [SvcStatus.payment_pending, SvcStatus.completed,
        SvcStatus.payment_confirmed, SvcStatus.creation_pending] ∧
    validTransition SvcStatus.completed SvcStatus.payment_confirmed = false :=
  ⟨rfl, rfl⟩

/-- C7 amended.  Every state-changing operation funnels through
`SessionService.applyUpdate`, which (for the updates the service issues,
none of which carries a custom `historyEntry`) appends exactly one history
entry whose status equals the post-transition status, preserves all existing
entries, and grows the history by exactly one; transition validity against
the §4.2 state machine is, however, not checked. -/
theorem applyUpdate_appends_single_entry_with_post_status
    (sessions : SvcMap) (sessionId : String) (session : SvcSessionRecord)
    (update : SvcSessionUpdate) (message : String) (timestamp : Nat)
    (hget : mapGet sessions sessionId = some session)
    (hhe : update.historyEntry = none) :
    (applyUpdateRecord session update message timestamp).status =
      update.status.getD session.status ∧
    (applyUpdateRecord session update message timestamp).history =
      session.history ++
        [{ status := update.status.getD session.status, message := message,
           timestamp := timestamp }] ∧
    (applyUpdateRecord session update message timestamp).history.length =
      session.history.length + 1 ∧
    svcApplyUpdate sessions sessionId update message timestamp =
      (mapSet sessions sessionId (applyUpdateRecord session update message timestamp),
       Except.ok (applyUpdateRecord session update message timestamp)) := by
  refine ⟨rfl, ?_, by simp [applyUpdateRecord, hhe], by simp [svcApplyUpdate, hget]⟩
  simp [applyUpdateRecord, hhe]

/-- Witness for `applyUpdate_appends_single_entry_with_post_status` on a
concrete pending session. -/
theorem applyUpdate_appends_witness :
    (applyUpdateRecord svcPending { status := some SvcStatus.payment_confirmed } "m" 3).history =
      svcPending.history ++
        [{ status := SvcStatus.payment_confirmed, message := "m", timestamp := 3 }] ∧
    svcApplyUpdate [("s1", svcPending)] "s1"
        { status := some SvcStatus.payment_confirmed } "m" 3 =
      (mapSet [("s1", svcPending)] "s1"
        (applyUpdateRecord svcPending { status := some SvcStatus.payment_confirmed } "m" 3),
       Except.ok (applyUpdateRecord svcPending
         { status := some SvcStatus.payment_confirmed } "m" 3)) :=
  ⟨(applyUpdate_appends_single_entry_with_post_status [("s1", svcPending)] "s1" svcPending
      { status := some SvcStatus.payment_confirmed } "m" 3 rfl rfl).2.1,
   (applyUpdate_appends_single_entry_with_post_status [("s1", svcPending)] "s1" svcPending
      { status := some SvcStatus.payment_confirmed } "m" 3 rfl rfl).2.2.2⟩

/-! ## C6 — scan failure and lastBlock -/

/-- C6 counterexample.  `pollNetwork` assigns `state.lastBlock = latestBlock`
before fetching the transfer logs, so when the log fetch throws the
last-scanned block has already been advanced from 5 to 10 and the failed
range (6..10) is never re-scanned. -/
theorem failed_log_fetch_advances_lastBlock :
    nsOne.lastBlock = 5 ∧
    (mapGet (pollNetworkTick lst1 "base" (Call.ok 10) (Call.threw "rpc timeout")
        apiOkFixture).1.networkStates "base").map NetworkState.lastBlock = some 10 :=
  ⟨rfl, rfl⟩

/-- C6 amended.  A tick whose block-height fetch throws (or whose height is
unchanged) leaves the listener state — in particular `lastBlock` — entirely
untouched, so that tick is re-tried from the same point; but once the new
height has been read, `lastBlock` is advanced *before* the transfer-log
fetch, so a thrown log fetch abandons the tick with `lastBlock` already at
the new height and the failed block range is skipped, not re-scanned. -/
theorem lastBlock_preserved_on_height_failure_advanced_on_log_failure :
    (∀ (st : ListenerState) (network message : String)
       (logsFetch : Call (List TransferLog)) (api : String → ApiResult),
      pollNetworkTick st network (Call.threw message) logsFetch api = (st, [])) ∧
    (∀ (st : ListenerState) (network : String) (ns : NetworkState) (latestBlock : Nat)
       (message : String) (api : String → ApiResult),
      mapGet st.networkStates network = some ns →
      ns.polling = false → ns.assets ≠ [] → ns.lastBlock < latestBlock →
      pollNetworkTick st network (Call.ok latestBlock) (Call.threw message) api =
        ({ st with
            networkStates := mapSet st.networkStates network { ns with lastBlock := latestBlock } },
         [])) := by
  constructor
  · intro st network message logsFetch api
    cases hmg : mapGet st.networkStates network with
    | none => simp [pollNetworkTick, hmg]
    | some ns =>
      simp only [pollNetworkTick, hmg]
      split_ifs <;> rfl
  · intro st network ns latestBlock message api hns hpoll hassets hlt
    unfold pollNetworkTick
    rw [hns]
    simp [hpoll, hassets, not_le.mpr hlt]

/-- Witness for `lastBlock_preserved_on_height_failure_advanced_on_log_failure`
at the concrete single-worker state. -/
theorem lastBlock_behavior_witness :
    pollNetworkTick lst1 "base" (Call.threw "timeout") (Call.ok []) apiOkFixture =
      (lst1, []) ∧
    pollNetworkTick lst1 "base" (Call.ok 10) (Call.threw "timeout") apiOkFixture =
      ({ lst1 with
          networkStates := mapSet lst1.networkStates "base" { nsOne with lastBlock := 10 } },
       []) :=
  ⟨lastBlock_preserved_on_height_failure_advanced_on_log_failure.1 lst1 "base" "timeout"
      (Call.ok []) apiOkFixture,
   lastBlock_preserved_on_height_failure_advanced_on_log_failure.2 lst1 "base" nsOne 10
      "timeout" apiOkFixture rfl rfl (by decide) (by decide)⟩

/-! ## C9 — watch-set cleanup -/

/-- C9.  `cleanupSession` removes the session record, removes its id from
the asset's session set; when that set becomes empty the asset is dropped
from both `sessionsByAsset` and the worker's asset watch set; and when the
worker is left watching zero assets (and holds a timer to cancel) the worker
itself is discarded from the network registry, bounding the watch set by the
currently-pending sessions. -/
theorem cleanupSession_bounds_watch_set (st : ListenerState) (ns : NetworkState)
    (sessionId network asset : String) (ids : List String)
    (hns : mapGet st.networkStates network = some ns)
    (hids : mapGet ns.sessionsByAsset asset = some ids) :
    mapGet (cleanupSession st sessionId network asset).sessions sessionId = none ∧
    (ids.erase sessionId ≠ [] → ns.assets ≠ [] →
      mapGet (cleanupSession st sessionId network asset).networkStates network =
        some { ns with
          sessionsByAsset := mapSet ns.sessionsByAsset asset (ids.erase sessionId) }) ∧
    (ids.erase sessionId = [] → ns.assets.erase asset ≠ [] →
      mapGet (cleanupSession st sessionId network asset).networkStates network =
        some { ns with
          sessionsByAsset := mapDel ns.sessionsByAsset asset,
          assets := ns.assets.erase asset }) ∧
    (ids.erase sessionId = [] → ns.assets.erase asset = [] → ns.timer = true →
      mapGet (cleanupSession st sessionId network asset).networkStates network = none) := by
  refine ⟨?_, ?_, ?_, ?_⟩
  · simp [cleanupSession, hns]
    split_ifs <;> exact mapGet_mapDel_self _ _
  · intro hrem hassets
    simp only [cleanupSession, hns, cleanupNet, hids, if_neg hrem]
    have hb : (decide (ns.assets = []) && ns.timer) = false := by
      simp [hassets]
    simp only [hb, Bool.false_eq_true, if_false]
    exact mapGet_mapSet_self _ _ _
  · intro hrem hassets
    simp only [cleanupSession, hns, cleanupNet, hids, if_pos hrem]
    have hb : (decide (ns.assets.erase asset = []) && ns.timer) = false := by
      simp [hassets]
    simp only [hb, Bool.false_eq_true, if_false]
    exact mapGet_mapSet_self _ _ _
  · intro hrem hassets htimer
    simp only [cleanupSession, hns, cleanupNet, hids, if_pos hrem]
    have hb : (decide (ns.assets.erase asset = []) && ns.timer) = true := by
      simp [hassets, htimer]
    simp only [hb, if_true]
    exact mapGet_mapDel_self _ _

/-- Witness for `cleanupSession_bounds_watch_set`: cleaning up the only
pending session empties the asset set and tears the worker down. -/
theorem cleanupSession_bounds_witness :
    mapGet (cleanupSession lst1 "p1" "base" "tok").sessions "p1" = none ∧
    mapGet (cleanupSession lst1 "p1" "base" "tok").networkStates "base" = none :=
  ⟨(cleanupSession_bounds_watch_set lst1 nsOne "p1" "base" "tok" ["p1"] rfl rfl).1,
   (cleanupSession_bounds_watch_set lst1 nsOne "p1" "base" "tok" ["p1"] rfl rfl).2.2.2
     rfl rfl rfl⟩

/-! ## Scan-loop lemmas -/

theorem setInsertNat_self_mem (l : List Nat) (a : Nat) : a ∈ setInsertNat l a := by
  unfold setInsertNat
  split_ifs with h
  · exact h
  · simp

theorem cleanupNet_processedTxHashes (ns : NetworkState) (sid asset : String) :
    (cleanupNet ns sid asset).1.processedTxHashes = ns.processedTxHashes := rfl

theorem cleanupDuringScan_sessions (ctx : ScanCtx) (sid asset : String) :
    (cleanupDuringScan ctx sid asset).sessions = mapDel ctx.sessions sid := by
  unfold cleanupDuringScan
  split_ifs <;> rfl

theorem cleanupDuringScan_processedTxHashes (ctx : ScanCtx) (sid asset : String) :
    (cleanupDuringScan ctx sid asset).net.processedTxHashes = ctx.net.processedTxHashes := by
  unfold cleanupDuringScan
  split_ifs with h
  · rfl
  · exact cleanupNet_processedTxHashes ctx.net sid asset

theorem handlePaymentDetected_frame (ctx : ScanCtx) (s : ListenerSession)
    (tx : Option Nat) (asset : String) (api : String → ApiResult) (other : String)
    (hne : other ≠ s.id) :
    mapGet (handlePaymentDetected ctx s tx asset api).sessions other =
      mapGet ctx.sessions other := by
  cases hapi : api s.id <;>
    simp [handlePaymentDetected, hapi, cleanupDuringScan_sessions,
      mapGet_mapDel_ne, mapGet_mapSet_ne, hne]

theorem handlePaymentDetected_processedTxHashes (ctx : ScanCtx) (s : ListenerSession)
    (tx : Option Nat) (asset : String) (api : String → ApiResult) :
    (handlePaymentDetected ctx s tx asset api).net.processedTxHashes =
      ctx.net.processedTxHashes := by
  cases hapi : api s.id <;>
    simp [handlePaymentDetected, hapi, cleanupDuringScan_processedTxHashes]

theorem wellKeyed_mapSet (m : List (String × ListenerSession)) (k : String)
    (v : ListenerSession) (hv : v.id = k) (h : WellKeyed m) : WellKeyed (mapSet m k v) := by
  intro key r hk
  by_cases hkk : key = k
  · subst hkk
    rw [mapGet_mapSet_self] at hk
    injection hk with he
    rw [← he]
    exact hv
  · rw [mapGet_mapSet_ne _ _ _ _ hkk] at hk
    exact h _ _ hk

theorem wellKeyed_mapDel (m : List (String × ListenerSession)) (k0 : String)
    (h : WellKeyed m) : WellKeyed (mapDel m k0) := by
  intro key r hk
  by_cases hkk : key = k0
  · subst hkk
    rw [mapGet_mapDel_self] at hk
    cases hk
  · rw [mapGet_mapDel_ne _ _ _ hkk] at hk
    exact h _ _ hk

theorem cleanupDuringScan_wellKeyed (ctx : ScanCtx) (sid asset : String)
    (h : WellKeyed ctx.sessions) : WellKeyed (cleanupDuringScan ctx sid asset).sessions := by
  intro k r hk
  rw [cleanupDuringScan_sessions] at hk
  exact wellKeyed_mapDel _ _ h _ _ hk

theorem handlePaymentDetected_wellKeyed (ctx : ScanCtx) (s : ListenerSession)
    (tx : Option Nat) (asset : String) (api : String → ApiResult)
    (h : WellKeyed ctx.sessions) :
    WellKeyed (handlePaymentDetected ctx s tx asset api).sessions := by
  cases hapi : api s.id <;>
    · unfold handlePaymentDetected
      rw [hapi]
      exact cleanupDuringScan_wellKeyed _ _ _
        (wellKeyed_mapSet _ _ _ rfl (wellKeyed_mapSet _ _ _ rfl h))

theorem tryMatch_eq_of_found {ctx : ScanCtx} {sessionId : String} {s : ListenerSession}
    (toAddress : String) (value : Nat) (tx : Option Nat) (asset : String)
    (api : String → ApiResult) (hmg : mapGet ctx.sessions sessionId = some s) :
    tryMatch ctx sessionId toAddress value tx asset api =
      if sessionMatches s toAddress value then
        (handlePaymentDetected ctx s tx asset api, [(sessionId, tx)])
      else (ctx, []) := by
  unfold tryMatch
  rw [hmg]

theorem tryMatch_eq_of_missing {ctx : ScanCtx} {sessionId : String}
    (toAddress : String) (value : Nat) (tx : Option Nat) (asset : String)
    (api : String → ApiResult) (hmg : mapGet ctx.sessions sessionId = none) :
    tryMatch ctx sessionId toAddress value tx asset api = (ctx, []) := by
  unfold tryMatch
  rw [hmg]

theorem tryMatch_wellKeyed (ctx : ScanCtx) (sessionId toAddress : String) (value : Nat)
    (tx : Option Nat) (asset : String) (api : String → ApiResult)
    (h : WellKeyed ctx.sessions) :
    WellKeyed (tryMatch ctx sessionId toAddress value tx asset api).1.sessions := by
  cases hmg : mapGet ctx.sessions sessionId with
  | none => rw [tryMatch_eq_of_missing toAddress value tx asset api hmg]; exact h
  | some s =>
    rw [tryMatch_eq_of_found toAddress value tx asset api hmg]
    split_ifs
    · exact handlePaymentDetected_wellKeyed _ _ _ _ _ h
    · exact h

theorem tryMatch_frame (ctx : ScanCtx) (sessionId toAddress : String) (value : Nat)
    (tx : Option Nat) (asset : String) (api : String → ApiResult) (other : String)
    (hwk : WellKeyed ctx.sessions) (hne : other ≠ sessionId) :
    mapGet (tryMatch ctx sessionId toAddress value tx asset api).1.sessions other =
      mapGet ctx.sessions other := by
  cases hmg : mapGet ctx.sessions sessionId with
  | none => rw [tryMatch_eq_of_missing toAddress value tx asset api hmg]
  | some s =>
    rw [tryMatch_eq_of_found toAddress value tx asset api hmg]
    split_ifs
    · have hne' : other ≠ s.id := by rw [hwk _ _ hmg]; exact hne
      exact handlePaymentDetected_frame _ _ _ _ _ _ hne'
    · rfl

theorem tryMatch_processedTxHashes (ctx : ScanCtx) (sessionId toAddress : String)
    (value : Nat) (tx : Option Nat) (asset : String) (api : String → ApiResult) :
    (tryMatch ctx sessionId toAddress value tx asset api).1.net.processedTxHashes =
      ctx.net.processedTxHashes := by
  cases hmg : mapGet ctx.sessions sessionId with
  | none => rw [tryMatch_eq_of_missing toAddress value tx asset api hmg]
  | some s =>
    rw [tryMatch_eq_of_found toAddress value tx asset api hmg]
    split_ifs
    · exact handlePaymentDetected_processedTxHashes _ _ _ _ _
    · rfl

theorem tryMatch_attempts_key (ctx : ScanCtx) (sessionId toAddress : String) (value : Nat)
    (tx : Option Nat) (asset : String) (api : String → ApiResult) :
    ∀ p ∈ (tryMatch ctx sessionId toAddress value tx asset api).2, p.1 = sessionId := by
  cases hmg : mapGet ctx.sessions sessionId with
  | none =>
    rw [tryMatch_eq_of_missing toAddress value tx asset api hmg]
    intro p hp
    simp at hp
  | some s =>
    rw [tryMatch_eq_of_found toAddress value tx asset api hmg]
    split_ifs
    · intro p hp
      obtain rfl := List.mem_singleton.mp hp
      rfl
    · intro p hp
      simp at hp

theorem matchLoop_wellKeyed (ids : List String) (ctx : ScanCtx) (toAddress : String)
    (value : Nat) (tx : Option Nat) (asset : String) (api : String → ApiResult)
    (h : WellKeyed ctx.sessions) :
    WellKeyed (matchLoop ctx ids toAddress value tx asset api).1.sessions := by
  induction ids generalizing ctx with
  | nil => exact h
  | cons sessionId rest ih =>
    exact ih _ (tryMatch_wellKeyed _ _ _ _ _ _ _ h)

theorem matchLoop_frame (ids : List String) (ctx : ScanCtx) (toAddress : String)
    (value : Nat) (tx : Option Nat) (asset : String) (api : String → ApiResult)
    (other : String) (hwk : WellKeyed ctx.sessions) (hnmem : other ∉ ids) :
    mapGet (matchLoop ctx ids toAddress value tx asset api).1.sessions other =
      mapGet ctx.sessions other := by
  induction ids generalizing ctx with
  | nil => rfl
  | cons sessionId rest ih =>
    have hne : other ≠ sessionId := fun hc => hnmem (hc ▸ List.mem_cons_self _ _)
    have hrest : other ∉ rest := fun hc => hnmem (List.mem_cons_of_mem _ hc)
    calc mapGet (matchLoop (tryMatch ctx sessionId toAddress value tx asset api).1 rest
            toAddress value tx asset api).1.sessions other
        = mapGet (tryMatch ctx sessionId toAddress value tx asset api).1.sessions other :=
          ih _ (tryMatch_wellKeyed _ _ _ _ _ _ _ hwk) hrest
      _ = mapGet ctx.sessions other :=
          tryMatch_frame _ _ _ _ _ _ _ _ hwk hne

theorem matchLoop_processedTxHashes (ids : List String) (ctx : ScanCtx)
    (toAddress : String) (value : Nat) (tx : Option Nat) (asset : String)
    (api : String → ApiResult) :
    (matchLoop ctx ids toAddress value tx asset api).1.net.processedTxHashes =
      ctx.net.processedTxHashes := by
  induction ids generalizing ctx with
  | nil => rfl
  | cons sessionId rest ih =>
    calc (matchLoop (tryMatch ctx sessionId toAddress value tx asset api).1 rest
            toAddress value tx asset api).1.net.processedTxHashes
        = (tryMatch ctx sessionId toAddress value tx asset api).1.net.processedTxHashes := ih _
      _ = ctx.net.processedTxHashes := tryMatch_processedTxHashes _ _ _ _ _ _ _

theorem matchLoop_attempts_key (ids : List String) (ctx : ScanCtx) (toAddress : String)
    (value : Nat) (tx : Option Nat) (asset : String) (api : String → ApiResult) :
    ∀ p ∈ (matchLoop ctx ids toAddress value tx asset api).2, p.1 ∈ ids := by
  induction ids generalizing ctx with
  | nil => intro p hp; simp [matchLoop] at hp
  | cons sessionId rest ih =>
    intro p hp
    simp only [matchLoop] at hp
    rcases List.mem_append.mp hp with hl | hr
    · rw [tryMatch_attempts_key _ _ _ _ _ _ _ p hl]
      exact List.mem_cons_self _ _
    · exact List.mem_cons_of_mem _ (ih _ p hr)

theorem sessionMatches_iff_of_pending (s : ListenerSession) (toAddress : String)
    (value : Nat) (hpend : s.status = ListenerStatus.pending) :
    sessionMatches s toAddress value = true ↔
      (safeNormalize s.payTo = some toAddress ∧ s.maxAmountRequired ≤ value) := by
  cases hsn : safeNormalize s.payTo <;> simp [sessionMatches, hpend, hsn]

theorem matchLoop_mem_iff (ids : List String) (ctx : ScanCtx)
    (sessionId toAddress : String) (value : Nat) (tx : Option Nat) (asset : String)
    (api : String → ApiResult) (s : ListenerSession)
    (hwk : WellKeyed ctx.sessions) (hnodup : ids.Nodup) (hmem : sessionId ∈ ids)
    (hmg : mapGet ctx.sessions sessionId = some s) :
    (sessionId ∈ (matchLoop ctx ids toAddress value tx asset api).2.map Prod.fst) ↔
      sessionMatches s toAddress value = true := by
  induction ids generalizing ctx with
  | nil => cases hmem
  | cons headId rest ih =>
    have hnodup' : rest.Nodup := hnodup.of_cons
    rcases List.mem_cons.mp hmem with rfl | hmem'
    · have hnotin : sessionId ∉ rest := (List.nodup_cons.mp hnodup).1
      by_cases hm : sessionMatches s toAddress value = true
      · simp only [matchLoop, tryMatch_eq_of_found toAddress value tx asset api hmg,
          if_pos hm, hm, iff_true, List.map_append, List.mem_append]
        left
        simp
      · simp only [matchLoop, tryMatch_eq_of_found toAddress value tx asset api hmg,
          if_neg hm, hm]
        constructor
        · intro hcontra
          simp only [List.map_append, List.mem_append] at hcontra
          rcases hcontra with hl | hr
          · simp at hl
          · obtain ⟨p, hp, hps⟩ := List.mem_map.mp hr
            have := matchLoop_attempts_key rest _ toAddress value tx asset api p hp
            rw [hps] at this
            exact absurd this hnotin
        · intro hcontra
          cases hcontra
    · have hne : sessionId ≠ headId := by
        intro hc
        exact (List.nodup_cons.mp hnodup).1 (hc ▸ hmem')
      have hmg' : mapGet (tryMatch ctx headId toAddress value tx asset api).1.sessions
          sessionId = some s := by
        rw [tryMatch_frame _ _ _ _ _ _ _ _ hwk hne]
        exact hmg
      have hwk' := tryMatch_wellKeyed ctx headId toAddress value tx asset api hwk
      have hih := ih _ hwk' hnodup' hmem' hmg'
      simp only [matchLoop, List.map_append, List.mem_append]
      rw [← hih]
      constructor
      · intro hc
        rcases hc with hl | hr
        · obtain ⟨p, hp, hps⟩ := List.mem_map.mp hl
          have := tryMatch_attempts_key ctx headId toAddress value tx asset api p hp
          rw [hps] at this
          exact absurd this hne
        · exact hr
      · intro hc
        right
        exact hc

theorem matchLoop_nomatch_preserves (ids : List String) (ctx : ScanCtx)
    (sessionId toAddress : String) (value : Nat) (tx : Option Nat) (asset : String)
    (api : String → ApiResult) (s : ListenerSession)
    (hwk : WellKeyed ctx.sessions) (hnodup : ids.Nodup) (hmem : sessionId ∈ ids)
    (hmg : mapGet ctx.sessions sessionId = some s)
    (hnm : sessionMatches s toAddress value = false) :
    mapGet (matchLoop ctx ids toAddress value tx asset api).1.sessions sessionId = some s := by
  induction ids generalizing ctx with
  | nil => cases hmem
  | cons headId rest ih =>
    rcases List.mem_cons.mp hmem with rfl | hmem'
    · have hnotin : sessionId ∉ rest := (List.nodup_cons.mp hnodup).1
      have hm : ¬ sessionMatches s toAddress value = true := by
        rw [hnm]
        exact Bool.false_ne_true
      simp only [matchLoop, tryMatch_eq_of_found toAddress value tx asset api hmg,
        if_neg hm]
      rw [matchLoop_frame rest _ toAddress value tx asset api _ hwk hnotin]
      exact hmg
    · have hne : sessionId ≠ headId := by
        intro hc
        exact (List.nodup_cons.mp hnodup).1 (hc ▸ hmem')
      have hmg' : mapGet (tryMatch ctx headId toAddress value tx asset api).1.sessions
          sessionId = some s := by
        rw [tryMatch_frame _ _ _ _ _ _ _ _ hwk hne]
        exact hmg
      exact ih _ (tryMatch_wellKeyed _ _ _ _ _ _ _ hwk) hnodup.of_cons hmem' hmg'

/-! ## C4 — transfer matching -/

/-- C4.  During a scan, a transfer event reaching the matching loop is
matched to a pending session — i.e. a confirmation attempt is made for it —
if and only if the event's recipient equals the session's stored `payTo`
destination (after normalization) and the transferred value is at least the
session's required amount, so overpayment is accepted; and an underpaying
transfer leaves the session's stored record — in particular its `pending`
status — completely unchanged. -/
theorem transfer_matching_iff_payTo_and_amount (ctx : ScanCtx) (log : TransferLog)
    (api : String → ApiResult) (h : Nat) (ids : List String)
    (sessionId recipient : String) (s : ListenerSession)
    (hwk : WellKeyed ctx.sessions)
    (hhash : log.transactionHash = some h) (hfresh : h ∉ ctx.net.processedTxHashes)
    (hids : mapGet ctx.net.sessionsByAsset log.address = some ids)
    (hnodup : ids.Nodup) (hmem : sessionId ∈ ids)
    (hrec : log.toAddr = some recipient) (hrecne : recipient ≠ "")
    (hmg : mapGet ctx.sessions sessionId = some s)
    (hpend : s.status = ListenerStatus.pending) :
    ((sessionId ∈ (processLog ctx log api).2.map Prod.fst) ↔
      (safeNormalize s.payTo = some recipient ∧
        s.maxAmountRequired ≤ (log.value).getD 0)) ∧
    ((log.value).getD 0 < s.maxAmountRequired →
      mapGet (processLog ctx log api).1.sessions sessionId = some s ∧
      s.status = ListenerStatus.pending) := by
  have hidsne : ¬ ids = [] := by
    intro hc
    rw [hc] at hmem
    cases hmem
  have hproc : processLog ctx log api =
      matchLoop { ctx with net := { ctx.net with
          processedTxHashes := setInsertNat ctx.net.processedTxHashes h } } ids recipient
        ((log.value).getD 0) log.transactionHash log.address api := by
    unfold processLog
    rw [hhash]
    simp only [decide_eq_true_eq, hfresh, decide_False, if_false, hids, hidsne, if_neg,
      hrec, hrecne]
    simp [hfresh, hidsne, hrecne]
  set ctx1 : ScanCtx := { ctx with net := { ctx.net with
    processedTxHashes := setInsertNat ctx.net.processedTxHashes h } } with hctx1
  have hwk1 : WellKeyed ctx1.sessions := hwk
  have hmg1 : mapGet ctx1.sessions sessionId = some s := hmg
  constructor
  · rw [hproc]
    rw [matchLoop_mem_iff ids ctx1 sessionId recipient ((log.value).getD 0)
      log.transactionHash log.address api s hwk1 hnodup hmem hmg1]
    exact sessionMatches_iff_of_pending s recipient ((log.value).getD 0) hpend
  · intro hunder
    have hnm : sessionMatches s recipient ((log.value).getD 0) = false := by
      rw [← Bool.not_eq_true]
      rw [sessionMatches_iff_of_pending s recipient ((log.value).getD 0) hpend]
      intro hc
      exact absurd hc.2 (not_le.mpr hunder)
    rw [hproc]
    exact ⟨matchLoop_nomatch_preserves ids ctx1 sessionId recipient ((log.value).getD 0)
      log.transactionHash log.address api s hwk1 hnodup hmem hmg1 hnm, hpend⟩

/-- Witness for `transfer_matching_iff_payTo_and_amount`: an exact payment to
the watched destination is matched, and an underpayment leaves the pending
session record untouched. -/
theorem transfer_matching_iff_witness :
    (("p1" ∈ (processLog scanCtx1 logA apiOkFixture).2.map Prod.fst) ↔
      (safeNormalize ls1.payTo = some "0xAAA" ∧
        ls1.maxAmountRequired ≤ (logA.value).getD 0)) ∧
    (mapGet (processLog scanCtx1 logUnder apiOkFixture).1.sessions "p1" = some ls1 ∧
      ls1.status = ListenerStatus.pending) := by
  have hwk : WellKeyed scanCtx1.sessions := by
    intro k r hk
    simp only [scanCtx1, lst1, mapGet] at hk
    split_ifs at hk with hkk
    cases hk
    exact hkk ▸ (rfl : ls1.id = "p1")
  refine ⟨?_, ?_⟩
  · exact (transfer_matching_iff_payTo_and_amount scanCtx1 logA apiOkFixture 7 ["p1"] "p1"
      "0xAAA" ls1 hwk rfl (by decide) rfl (by decide) (by decide) rfl (by decide) rfl rfl).1
  · exact (transfer_matching_iff_payTo_and_amount scanCtx1 logUnder apiOkFixture 7 ["p1"]
      "p1" "0xAAA" ls1 hwk rfl (by decide) rfl (by decide) (by decide) rfl (by decide) rfl
      rfl).2 (by decide)

/-! ## C5 — transaction-hash deduplication -/

theorem processLog_skip_of_processed (ctx : ScanCtx) (log : TransferLog)
    (api : String → ApiResult) (h : Nat) (hhash : log.transactionHash = some h)
    (hmem : h ∈ ctx.net.processedTxHashes) : processLog ctx log api = (ctx, []) := by
  unfold processLog
  rw [hhash]
  simp [hmem]

theorem processLog_marks_hash (ctx : ScanCtx) (log : TransferLog)
    (api : String → ApiResult) (h : Nat) (hhash : log.transactionHash = some h) :
    h ∈ (processLog ctx log api).1.net.processedTxHashes := by
  by_cases hmem : h ∈ ctx.net.processedTxHashes
  · rw [processLog_skip_of_processed ctx log api h hhash hmem]
    exact hmem
  · have hb : (decide (h ∈ ctx.net.processedTxHashes)) = false := by simp [hmem]
    unfold processLog
    rw [hhash]
    dsimp only
    simp only [hb, Bool.false_eq_true, if_false]
    cases hsba : mapGet ctx.net.sessionsByAsset log.address with
    | none => exact setInsertNat_self_mem _ _
    | some ids =>
      dsimp only
      split_ifs with hids0
      · exact setInsertNat_self_mem _ _
      · cases hta : log.toAddr with
        | none => exact setInsertNat_self_mem _ _
        | some recipient =>
          dsimp only
          split_ifs with hr
          · exact setInsertNat_self_mem _ _
          · rw [matchLoop_processedTxHashes]
            exact setInsertNat_self_mem _ _

/-- C5 counterexample.  Deduplication is per event, not per confirmation
attempt: a single processed transfer event whose value covers two pending
sessions awaiting payment on the same asset and destination produces one
confirmation attempt per matching session, so two confirmation attempts are
made carrying the same transaction hash 7. -/
theorem single_event_can_confirm_multiple_sessions :
    (processLogs scanCtx2 [logA] apiOkFixture).2 = [("p1", some 7), ("p2", some 7)] := rfl

/-- C5 amended.  Events are deduplicated by transaction hash across the scan
ticks of a worker: an event whose hash is already in `processedTxHashes` is
skipped entirely (no state change and no confirmation attempt), and
processing any event carrying a hash leaves that hash in
`processedTxHashes`, so only the first event with a given hash is ever
processed; a single processed event may, however, make one confirmation
attempt per matching pending session. -/
theorem txHash_dedup_processes_each_hash_once :
    (∀ (ctx : ScanCtx) (log : TransferLog) (api : String → ApiResult) (h : Nat),
      log.transactionHash = some h → h ∈ ctx.net.processedTxHashes →
      processLog ctx log api = (ctx, [])) ∧
    (∀ (ctx : ScanCtx) (log : TransferLog) (api : String → ApiResult) (h : Nat),
      log.transactionHash = some h →
      h ∈ (processLog ctx log api).1.net.processedTxHashes) :=
  ⟨processLog_skip_of_processed, processLog_marks_hash⟩

/-- Witness for `txHash_dedup_processes_each_hash_once`: an already-seen hash
is skipped without effect, and a fresh hash ends up marked processed. -/
theorem txHash_dedup_witness :
    processLog scanCtx1Seen logA apiOkFixture = (scanCtx1Seen, []) ∧
    7 ∈ (processLog scanCtx1 logA apiOkFixture).1.net.processedTxHashes :=
  ⟨txHash_dedup_processes_each_hash_once.1 scanCtx1Seen logA apiOkFixture 7 rfl (by decide),
   txHash_dedup_processes_each_hash_once.2 scanCtx1 logA apiOkFixture 7 rfl⟩

end Foldspace
